import Mathlib

/-!
A shallow embedding of the finding-extraction and duplicate-detection pipeline
of the research digest system: the text extractors of `src/lib/perplexity.ts`,
the blog duplicate checker of `src/lib/blogChecker.ts`, the history tracker,
the urgent-item filter of `src/lib/resend.ts`, and the cron job results of
`src/app/api/cron/morning-digest/route.ts`.

Strings are modelled as `List Char`.  JavaScript regular-expression scans are
hand-compiled into equivalent recursive scanners; each scanner's doc comment
names the regular expression it implements.  Ratios that the source computes
with floating-point division are modelled as exact rationals; the compared
quantities are small token counts, for which the two comparisons agree.
-/

namespace Research

/-- Whitespace characters matched by the JavaScript regex class `\s`
(restricted to the ASCII whitespace relevant to the modelled texts). -/
def isSpace (c : Char) : Bool :=
  c = ' ' || c = '\t' || c = '\n' || c = '\r' || c = '\x0b' || c = '\x0c'

/-- Lowercasing of a JavaScript string (`toLowerCase`). -/
def lower (l : List Char) : List Char := l.map Char.toLower

/-- Test that `l` starts with `pat` (hand-compiled literal regex part). -/
def startsWithList : List Char → List Char → Bool
  | _, [] => true
  | [], _ :: _ => false
  | c :: cs, p :: ps => c = p && startsWithList cs ps

/-- JavaScript `String.prototype.includes`: `pat` occurs as a contiguous
substring of the first argument. -/
def containsSub : List Char → List Char → Bool
  | [], pat => startsWithList [] pat
  | c :: rest, pat => startsWithList (c :: rest) pat || containsSub rest pat

/-- Case-insensitive prefix test, for regexes carrying the `/i` flag. -/
def lowerStartsWith (s pat : List Char) : Bool := startsWithList (lower s) pat

/-- JavaScript `String.prototype.trim` (whitespace stripped from both ends). -/
def trim (l : List Char) : List Char :=
  ((l.dropWhile isSpace).reverse.dropWhile isSpace).reverse

/-- Split `l` at the first occurrence of the character `c`: the content before
it and the remainder after it; `none` when `c` does not occur. -/
def splitAtChar (c : Char) : List Char → Option (List Char × List Char)
  | [] => none
  | d :: rest =>
    if d = c then some ([], rest)
    else (splitAtChar c rest).map (fun p => (d :: p.1, p.2))

/-- The apostrophe character (single quote). -/
def apos : Char := Char.ofNat 39

-- ===================================================================
-- Text extractors (src/lib/perplexity.ts)
-- ===================================================================

/-- Priority levels (`PriorityLevel` in `src/types/index.ts`). -/
inductive PriorityLevel where
  | low
  | medium
  | high
  | urgent
deriving DecidableEq, Repr

/-- Project identifiers (`ProjectName` in `src/types/index.ts`). -/
inductive ProjectName where
  | sponsorbase
  | luma
  | marina
deriving DecidableEq, Repr

/-- Query categories (`QueryCategory` in `src/types/index.ts`). -/
inductive QueryCategory where
  | competitor_intel
  | reddit_pain_points
  | general_pain_points
  | regulatory_updates
  | market_intel
  | trending_topics
  | urgent_news
deriving DecidableEq, Repr

/-- Priority parser (`parsePriority` in `src/lib/perplexity.ts`): lowercase
the text, then scan for the literal substrings in precedence order. -/
def parsePriority (text : List Char) : PriorityLevel :=
  let lowerText := lower text
  if containsSub lowerText ("urgent".toList) then .urgent
  else if containsSub lowerText ("high".toList) then .high
  else if containsSub lowerText ("medium".toList) then .medium
  else .low

/-- Pain point record (`PainPoint` in `src/types/index.ts`; the unused
`source` and `upvotes` fields are omitted as no code path sets them). -/
structure PainPoint where
  quote : List Char
  subreddit : Option (List Char) := none
  emotionalLanguage : Option (List (List Char)) := none
deriving DecidableEq, Repr

/-- Quote scanner body: hand-compiled from the global regex
`/"([^"]+)"|"([^"]+)"|'([^']+)'/g` of `extractPainPoints` (the first two
alternatives are the same double-quote pattern).  At an opening quote it
captures the non-empty run up to the matching close quote; a quote character
with no closing partner, or an immediately closed pair, resumes the scan at
the next character, as the regex engine does.  The fuel argument makes the
recursion structural; every step shortens the remaining text, so the initial
fuel `text.length` never runs out. -/
def scanQuotesF : Nat → List Char → List (List Char)
  | 0, _ => []
  | _ + 1, [] => []
  | fuel + 1, c :: rest =>
    if c = '"' ∨ c = apos then
      match splitAtChar c rest with
      | some (content, rest2) =>
        if content.isEmpty then scanQuotesF fuel rest
        else content :: scanQuotesF fuel rest2
      | none => scanQuotesF fuel rest
    else scanQuotesF fuel rest

/-- Quote scanner at full fuel. -/
def scanQuotes (l : List Char) : List (List Char) := scanQuotesF l.length l

/-- Emotional vocabulary list of `extractPainPoints`. -/
def emotionalWords : List (List Char) :=
  [("frustrated".toList), ("nightmare".toList), ("hate".toList),
   ("wish".toList), ("impossible".toList), ("terrible".toList),
   ("awful".toList), ("annoying".toList), ("pain".toList),
   ("struggle".toList), ("difficult".toList)]

/-- Build a pain point from a captured quote, tagging emotional language as
`extractPainPoints` does (undefined when no word matches). -/
def mkPainPoint (q : List Char) : PainPoint :=
  let el := emotionalWords.filter (fun w => containsSub (lower q) w)
  { quote := q
    subreddit := none
    emotionalLanguage := if el.length > 0 then some el else none }

/-- First loop of `extractPainPoints`: quoted spans of length strictly
between 10 and 500, in scan order. -/
def painPointsPass1 (text : List Char) : List PainPoint :=
  ((scanQuotes text).filter (fun q => q.length > 10 && q.length < 500)).map mkPainPoint

/-- JavaScript word characters (`\w`). -/
def isWordChar (c : Char) : Bool := c.isAlphanum || c = '_'

/-- Subreddit scanner body: hand-compiled from the global regex `/r\/(\w+)/g`,
returning the captured community names in scan order (fuel as in
`scanQuotesF`). -/
def scanSubredditsF : Nat → List Char → List (List Char)
  | 0, _ => []
  | _ + 1, [] => []
  | fuel + 1, 'r' :: '/' :: rest =>
    let name := rest.takeWhile isWordChar
    if name.isEmpty then scanSubredditsF fuel ('/' :: rest)
    else name :: scanSubredditsF fuel (rest.drop name.length)
  | fuel + 1, _ :: rest => scanSubredditsF fuel rest

/-- Subreddit scanner at full fuel. -/
def scanSubreddits (l : List Char) : List (List Char) := scanSubredditsF l.length l

/-- JavaScript `String.prototype.indexOf` for a substring (−1 if absent). -/
def idxOfSubAux : List Char → List Char → Option Nat
  | [], pat => if startsWithList [] pat then some 0 else none
  | c :: rest, pat =>
    if startsWithList (c :: rest) pat then some 0
    else (idxOfSubAux rest pat).map (· + 1)

/-- JavaScript `String.prototype.indexOf` as an integer (−1 if absent). -/
def idxOfSub (l pat : List Char) : Int :=
  match idxOfSubAux l pat with
  | some n => (n : Int)
  | none => -1

/-- Second loop of `extractPainPoints`: one subreddit match updates the first
pain point whose quote lies within 200 characters of the match. -/
def assignSubreddit (text name : List Char) : List PainPoint → List PainPoint
  | [] => []
  | p :: rest =>
    if idxOfSub text p.quote > idxOfSub text ('r' :: '/' :: name) - 200 ∧
       idxOfSub text p.quote < idxOfSub text ('r' :: '/' :: name) + 200 then
      { p with subreddit := some name } :: rest
    else p :: assignSubreddit text name rest

/-- Pain point extractor (`extractPainPoints` in `src/lib/perplexity.ts`). -/
def extractPainPoints (text : List Char) : List PainPoint :=
  (scanSubreddits text).foldl
    (fun pps name => assignSubreddit text name pps)
    (painPointsPass1 text)

/-- Capture characters until the stop predicate holds (or the text ends):
hand-compiled form of a lazy `([\s\S]*?)` capture in front of a lookahead
that always admits the end of the string. -/
def captureUntil (stop : List Char → Bool) : List Char → List Char
  | [] => []
  | c :: rest => if stop (c :: rest) then [] else c :: captureUntil stop rest

/-- Bullet-line scanner: hand-compiled from the global regex
`/(?:^|\n)\s*(?:[-•*]|\d+[.)]\s*)(.*?)(?=\n|$)/g` shared by the key-findings,
action-items and solution-requests extractors.  It is invoked at an anchor
(start of text, or just after a newline); it skips whitespace, matches a
bullet marker, captures the rest of the line, and resumes after that line;
on failure it resumes after the next newline.  For a numbered marker the
greedy `\s*` after `[.)]` may cross line breaks, exactly as in the regex. -/
def bulletCapturesF : Nat → List Char → List (List Char)
  | 0, _ => []
  | fuel + 1, r =>
    match r.dropWhile isSpace with
    | [] => []
    | c :: rest =>
      if c = '-' ∨ c = '•' ∨ c = '*' then
        let cap := rest.takeWhile (fun ch => ch ≠ '\n')
        match rest.drop cap.length with
        | [] => [cap]
        | _ :: rest2 => cap :: bulletCapturesF fuel rest2
      else if c.isDigit then
        let ds := (c :: rest).takeWhile Char.isDigit
        match (c :: rest).drop ds.length with
        | [] => []
        | p :: rest3 =>
          if p = '.' ∨ p = ')' then
            let cap := (rest3.dropWhile isSpace).takeWhile (fun ch => ch ≠ '\n')
            match (rest3.dropWhile isSpace).drop cap.length with
            | [] => [cap]
            | _ :: rest4 => cap :: bulletCapturesF fuel rest4
          else
            match splitAtChar '\n' (c :: rest) with
            | some (_, rest5) => bulletCapturesF fuel rest5
            | none => []
      else
        match splitAtChar '\n' (c :: rest) with
        | some (_, rest6) => bulletCapturesF fuel rest6
        | none => []

/-- Bullet-line scanner at full fuel. -/
def bulletCaptures (r : List Char) : List (List Char) := bulletCapturesF r.length r

/-- Stop condition of the key-findings section regex lookahead
`(?=most important|pain point|solution|action|priority|$)`. -/
def kfStop (s : List Char) : Bool :=
  lowerStartsWith s ("most important".toList) ||
  lowerStartsWith s ("pain point".toList) ||
  lowerStartsWith s ("solution".toList) ||
  lowerStartsWith s ("action".toList) ||
  lowerStartsWith s ("priority".toList)

/-- Section tail after a matched heading literal: the optional plural `s`
(when `optS` is set), an optional colon, greedy `\s*`, then the lazy
`([\s\S]*?)` capture running to the lookahead `stop` or the end of text.
Hand-compiled from the `s?:?\s*([\s\S]*?)(?=...)` regex tails. -/
def sectionTail (stop : List Char → Bool) (optS : Bool) (r : List Char) : List Char :=
  let r1 :=
    if optS then
      match r with
      | c :: rest => if c.toLower = 's' then rest else c :: rest
      | [] => []
    else r
  let r2 :=
    match r1 with
    | ':' :: rest => rest
    | other => other
  captureUntil stop (r2.dropWhile isSpace)

/-- Key-findings section matcher: hand-compiled from
`/key findings?:?\s*([\s\S]*?)(?=most important|pain point|solution|action|priority|$)/i`,
returning the captured section after the first occurrence of the heading. -/
def kfFind : List Char → Option (List Char)
  | [] => none
  | c :: rest =>
    if lowerStartsWith (c :: rest) ("key finding".toList) then
      some (sectionTail kfStop true ((c :: rest).drop 11))
    else kfFind rest

/-- Splitter body with JavaScript `String.prototype.split` semantics for a
one-character-class separator regex applied globally: maximal separator runs
split the text, and boundary matches contribute empty pieces.  The `skip`
flag is set while inside a separator run; `acc` accumulates the current piece
reversed.  One character is consumed per step, so the initial fuel
`l.length` never runs out. -/
def jsSplitF (p : Char → Bool) : Nat → Bool → List Char → List Char → List (List Char)
  | 0, skip, _, acc => if skip then [[]] else [acc.reverse]
  | _ + 1, skip, [], acc => if skip then [[]] else [acc.reverse]
  | fuel + 1, true, c :: rest, _ =>
    if p c then jsSplitF p fuel true rest []
    else jsSplitF p fuel false rest [c]
  | fuel + 1, false, c :: rest, acc =>
    if p c then acc.reverse :: jsSplitF p fuel true rest []
    else jsSplitF p fuel false rest (c :: acc)

/-- JavaScript `split(/X+/)` for a character class `X`. -/
def jsSplit (p : Char → Bool) (l : List Char) : List (List Char) :=
  jsSplitF p l.length false l []

/-- JavaScript `split(/\s+/)`. -/
def splitWsJS (l : List Char) : List (List Char) := jsSplit isSpace l

/-- Sentence punctuation class `[.!?]` of the key-findings fallback. -/
def isPunct (c : Char) : Bool := c = '.' || c = '!' || c = '?'

/-- Key findings extractor (`extractKeyFindings` in `src/lib/perplexity.ts`):
bulleted lines of length strictly between 10 and 300; if none survive, fall
back to sentences of the key-findings section; at most 10 findings. -/
def extractKeyFindings (text : List Char) : List (List Char) :=
  let fromBullets :=
    ((bulletCaptures text).map trim).filter (fun f => f.length > 10 && f.length < 300)
  let findings :=
    if fromBullets.isEmpty then
      match kfFind text with
      | some sec =>
        let sentences := (jsSplit isPunct sec).filter (fun s => (trim s).length > 10)
        (sentences.take 5).map trim
      | none => []
    else fromBullets
  findings.take 10

/-- Stop condition of the most-important-insight lookahead
`(?=\n\n|pain point|solution|action|$)` (the end-of-text case is handled by
the callers of this predicate). -/
def insightStop (s : List Char) : Bool :=
  startsWithList s ('\n' :: '\n' :: []) ||
  lowerStartsWith s ("pain point".toList) ||
  lowerStartsWith s ("solution".toList) ||
  lowerStartsWith s ("action".toList)

/-- Lazy `(.*?)` search of the insight regex: the least number of non-newline
characters after which the lookahead (or the end of text) holds; `none` when a
newline blocks every stop position. -/
def insightFindStop : List Char → Option Nat
  | [] => some 0
  | c :: rest =>
    if insightStop (c :: rest) then some 0
    else if c = '\n' then none
    else (insightFindStop rest).map (· + 1)

/-- Backtracking over the greedy `\s*` of the insight regex: try the maximal
whitespace skip `k` first and give back one character at a time. -/
def insightTryK : Nat → List Char → Option (List Char)
  | 0, r =>
    match insightFindStop r with
    | some m => some (r.take m)
    | none => none
  | k + 1, r =>
    match insightFindStop (r.drop (k + 1)) with
    | some m => some ((r.drop (k + 1)).take m)
    | none => insightTryK k r

/-- Tail of the insight regex after the heading literal: optional colon
(greedy, retried without it on failure), `\s*`, lazy non-newline capture. -/
def insightMatchAt (r : List Char) : Option (List Char) :=
  let tryTail := fun (rr : List Char) => insightTryK ((rr.takeWhile isSpace).length) rr
  match r with
  | ':' :: rest =>
    match tryTail rest with
    | some cap => some cap
    | none => tryTail (':' :: rest)
  | other => tryTail other

/-- Search for the first occurrence of the insight heading whose regex tail
matches: hand-compiled from
`/most important insight:?\s*(.*?)(?=\n\n|pain point|solution|action|$)/i`. -/
def insightSearch : List Char → Option (List Char)
  | [] => none
  | c :: rest =>
    if lowerStartsWith (c :: rest) ("most important insight".toList) then
      match insightMatchAt ((c :: rest).drop 22) with
      | some cap => some cap
      | none => insightSearch rest
    else insightSearch rest

/-- Leading bullet stripper `replace(/^[-•*]\s*/, '')`. -/
def stripLeadingBullet (l : List Char) : List Char :=
  match l with
  | c :: rest =>
    if c = '-' ∨ c = '•' ∨ c = '*' then rest.dropWhile isSpace else c :: rest
  | [] => []

/-- Most-important-insight extractor (`extractMostImportantInsight` in
`src/lib/perplexity.ts`): labeled section first, then the first key finding,
then a fixed placeholder. -/
def extractMostImportantInsight (text : List Char) : List Char :=
  match insightSearch text with
  | some cap => stripLeadingBullet (trim cap)
  | none =>
    match extractKeyFindings text with
    | f :: _ => f
    | [] => "No specific insight extracted".toList

/-- Stop condition of the action-items lookahead `(?=priority|$)`. -/
def actionStop (s : List Char) : Bool :=
  lowerStartsWith s ("priority".toList)

/-- Action-items section matcher: hand-compiled from
`/action items?:?\s*([\s\S]*?)(?=priority|$)/i`. -/
def actionFind : List Char → Option (List Char)
  | [] => none
  | c :: rest =>
    if lowerStartsWith (c :: rest) ("action item".toList) then
      some (sectionTail actionStop true ((c :: rest).drop 11))
    else actionFind rest

/-- Action items extractor (`extractActionItems` in `src/lib/perplexity.ts`):
bulleted lines of the action-items section with length strictly between 5 and
200, capped at 5. -/
def extractActionItems (text : List Char) : List (List Char) :=
  match actionFind text with
  | some sec =>
    (((bulletCaptures sec).map trim).filter
      (fun a => a.length > 5 && a.length < 200)).take 5
  | none => []

/-- Stop condition of the solution-requests lookahead `(?=action|priority|$)`. -/
def solutionStop (s : List Char) : Bool :=
  lowerStartsWith s ("action".toList) || lowerStartsWith s ("priority".toList)

/-- Greedy `.*` followed by the literal ` asking for` on the same line: the
largest same-line offset at which the literal matches, searched from `m`
downward, returning the remainder after the literal. -/
def askingForFrom (r : List Char) : Nat → Option (List Char)
  | 0 =>
    if lowerStartsWith r (" asking for".toList) then some (r.drop 11) else none
  | m + 1 =>
    if lowerStartsWith (r.drop (m + 1)) (" asking for".toList) then
      some (r.drop (m + 1 + 11))
    else askingForFrom r m

/-- Solution-requests section matcher: hand-compiled from
`/(?:solution|what .* asking for):?\s*([\s\S]*?)(?=action|priority|$)/i`
(alternatives tried in order at each position, `.*` confined to one line). -/
def solutionFind : List Char → Option (List Char)
  | [] => none
  | c :: rest =>
    if lowerStartsWith (c :: rest) ("solution".toList) then
      some (sectionTail solutionStop false ((c :: rest).drop 8))
    else if lowerStartsWith (c :: rest) ("what ".toList) then
      match askingForFrom ((c :: rest).drop 5)
          (((c :: rest).drop 5).takeWhile (fun ch => ch ≠ '\n')).length with
      | some r2 => some (sectionTail solutionStop false r2)
      | none => solutionFind rest
    else solutionFind rest

/-- Solution requests extractor (`extractSolutionRequests` in
`src/lib/perplexity.ts`). -/
def extractSolutionRequests (text : List Char) : List (List Char) :=
  match solutionFind text with
  | some sec =>
    (((bulletCaptures sec).map trim).filter
      (fun s => s.length > 5 && s.length < 200)).take 5
  | none => []

/-- Source citation (`Source` in `src/types/index.ts`). -/
structure Source where
  title : List Char
  url : List Char
deriving DecidableEq, Repr

/-- Decimal rendering of a natural number, for the `Source N` titles. -/
def natChars (n : Nat) : List Char := (Nat.repr n).toList

/-- URL matcher at one position: hand-compiled from `https?:\/\/[^\s\)]+`
(the scheme, then at least one character that is neither whitespace nor a
closing parenthesis). -/
def matchUrlAt (l : List Char) : Option (List Char) :=
  if startsWithList l ("https://".toList) then
    let t := (l.drop 8).takeWhile (fun c => !isSpace c && c ≠ ')')
    if t.isEmpty then none else some ("https://".toList ++ t)
  else if startsWithList l ("http://".toList) then
    let t := (l.drop 7).takeWhile (fun c => !isSpace c && c ≠ ')')
    if t.isEmpty then none else some ("http://".toList ++ t)
  else none

/-- Global URL scan body: hand-compiled from the loop over
`/https?:\/\/[^\s\)]+/g`, in match order (fuel as in `scanQuotesF`). -/
def extractTextUrlsF : Nat → List Char → List (List Char)
  | 0, _ => []
  | _ + 1, [] => []
  | fuel + 1, c :: rest =>
    match matchUrlAt (c :: rest) with
    | some m => m :: extractTextUrlsF fuel ((c :: rest).drop m.length)
    | none => extractTextUrlsF fuel rest

/-- Global URL scan at full fuel. -/
def extractTextUrls (l : List Char) : List (List Char) := extractTextUrlsF l.length l

/-- Trailing punctuation stripper `replace(/[.,;:]+$/, '')`. -/
def stripTrailingPunct (l : List Char) : List Char :=
  (l.reverse.dropWhile (fun c => c = '.' || c = ',' || c = ';' || c = ':')).reverse

/-- Citation part of `extractSources`: one `Source N` record per citation
URL, taken verbatim. -/
def citationSources (citations : List (List Char)) : List Source :=
  citations.enum.map (fun p =>
    { title := "Source ".toList ++ natChars (p.1 + 1), url := p.2 : Source })

/-- Loop body of the text-URL part of `extractSources`: strip trailing
punctuation and push the URL unless it is already present. -/
def addSourceFromText (sources : List Source) (m : List Char) : List Source :=
  let url := stripTrailingPunct m
  if sources.any (fun s => s.url = url) then sources
  else sources ++ [{ title := "Mentioned source".toList, url := url }]

/-- Source extractor (`extractSources` in `src/lib/perplexity.ts`): one
`Source N` record per citation URL verbatim, then URLs scanned from the raw
text, each stripped of trailing punctuation and added only when its URL is
not already present. -/
def extractSources (citations : List (List Char)) (content : List Char) : List Source :=
  (extractTextUrls content).foldl addSourceFromText (citationSources citations)

/-- Research finding record (`ResearchFinding` in `src/types/index.ts`). -/
structure ResearchFinding where
  query : List Char
  project : ProjectName
  category : QueryCategory
  keyFindings : List (List Char)
  mostImportantInsight : List Char
  painPoints : List PainPoint
  solutionRequests : List (List Char)
  actionItems : List (List Char)
  priority : PriorityLevel
  sources : List Source
  rawResponse : List Char
  timestamp : List Char
deriving DecidableEq, Repr

/-- Pure assembly step of `processQuery` in `src/lib/perplexity.ts`: the
extractor outputs plus query metadata form the Finding (the response content
and citation list stand for the upstream API response; the timestamp is the
clock reading at assembly time). -/
def assembleFinding (query : List Char) (project : ProjectName)
    (category : QueryCategory) (content : List Char)
    (citations : List (List Char)) (timestamp : List Char) : ResearchFinding :=
  { query := query
    project := project
    category := category
    keyFindings := extractKeyFindings content
    mostImportantInsight := extractMostImportantInsight content
    painPoints := extractPainPoints content
    solutionRequests := extractSolutionRequests content
    actionItems := extractActionItems content
    priority := parsePriority content
    sources := extractSources citations content
    rawResponse := content
    timestamp := timestamp }

-- ===================================================================
-- Blog duplicate checker (src/lib/blogChecker.ts)
-- ===================================================================

/-- Existing blog post (`ExistingBlogPost` in `src/types/index.ts`; the
optional `url` field is omitted as the checker never reads it). -/
structure ExistingBlogPost where
  title : List Char
  project : ProjectName
deriving DecidableEq, Repr

/-- Result of a blog fetch (`BlogCheckResult` in `src/types/index.ts`). -/
structure BlogCheckResult where
  project : ProjectName
  blogUrl : List Char
  existingPosts : List ExistingBlogPost
  success : Bool
  error : Option (List Char) := none
deriving DecidableEq, Repr

/-- Blog topic recommendation (`BlogTopic` in `src/types/index.ts`). -/
structure BlogTopic where
  title : List Char
  targetKeywords : List (List Char)
  project : ProjectName
  isDuplicate : Bool
  existingPostTitle : Option (List Char) := none
deriving DecidableEq, Repr

/-- Stop-word list of `isSimilarTopic` in `src/lib/blogChecker.ts`. -/
def similarStopWords : List (List Char) :=
  [("the".toList), ("a".toList), ("an".toList), ("and".toList), ("or".toList),
   ("but".toList), ("in".toList), ("on".toList), ("at".toList), ("to".toList),
   ("for".toList), ("of".toList), ("with".toList), ("by".toList),
   ("from".toList), ("as".toList), ("is".toList), ("was".toList),
   ("are".toList), ("were".toList), ("been".toList), ("be".toList),
   ("have".toList), ("has".toList), ("had".toList), ("do".toList),
   ("does".toList), ("did".toList), ("will".toList), ("would".toList),
   ("could".toList), ("should".toList), ("may".toList), ("might".toList),
   ("must".toList), ("shall".toList), ("can".toList), ("need".toList),
   ("your".toList), ("you".toList), ("how".toList), ("what".toList),
   ("why".toList), ("when".toList), ("where".toList), ("which".toList),
   ("who".toList)]

/-- The character filter `replace(/[^a-z0-9\s]/g, '')` (applied to text that
is already lowercased in the source). -/
def sanitize (l : List Char) : List Char :=
  l.filter (fun c => ('a' ≤ c && c ≤ 'z') || ('0' ≤ c && c ≤ '9') || isSpace c)

/-- Keyword tokens of `isSimilarTopic`: the lowercased, sanitized title split
on whitespace, keeping tokens longer than 2 that are not stop words (the
argument is expected lowercased, as in the source). -/
def similarKeywords (titleLower : List Char) : List (List Char) :=
  (splitWsJS (sanitize titleLower)).filter
    (fun w => w.length > 2 && !(similarStopWords.contains w))

/-- Outcome of `isSimilarTopic`. -/
structure SimilarResult where
  isDuplicate : Bool
  matchedPost : Option (List Char) := none
deriving DecidableEq, Repr

/-- Loop body of `isSimilarTopic`: keyword overlap ratio above one half, or
one title's lowercase form containing the other's first 30 characters. -/
def isSimilarGo (newTopicLower : List Char) (newKeywords : List (List Char)) :
    List ExistingBlogPost → SimilarResult
  | [] => { isDuplicate := false }
  | post :: rest =>
    let existingLower := lower post.title
    let existingKeywords := similarKeywords existingLower
    let matchCount :=
      (newKeywords.filter (fun kw =>
        existingKeywords.any (fun ex => containsSub ex kw || containsSub kw ex))).length
    if mkRat matchCount (Nat.max newKeywords.length 1) > mkRat 1 2 then
      { isDuplicate := true, matchedPost := some post.title }
    else if containsSub existingLower (newTopicLower.take 30) ||
        containsSub newTopicLower (existingLower.take 30) then
      { isDuplicate := true, matchedPost := some post.title }
    else isSimilarGo newTopicLower newKeywords rest

/-- Duplicate-topic check (`isSimilarTopic` in `src/lib/blogChecker.ts`). -/
def isSimilarTopic (newTopic : List Char) (existingPosts : List ExistingBlogPost) :
    SimilarResult :=
  let newTopicLower := lower newTopic
  isSimilarGo newTopicLower (similarKeywords newTopicLower) existingPosts

/-- Stop-word list of `extractKeywords` in `src/lib/blogChecker.ts`. -/
def keywordStopWords : List (List Char) :=
  [("the".toList), ("a".toList), ("an".toList), ("and".toList), ("or".toList),
   ("but".toList), ("in".toList), ("on".toList), ("at".toList), ("to".toList),
   ("for".toList), ("of".toList), ("with".toList), ("by".toList),
   ("from".toList), ("as".toList), ("is".toList), ("was".toList),
   ("are".toList), ("were".toList), ("how".toList), ("what".toList),
   ("why".toList), ("when".toList), ("where".toList), ("which".toList),
   ("who".toList), ("your".toList), ("you".toList), ("guide".toList),
   ("complete".toList), ("ultimate".toList), ("best".toList), ("top".toList)]

/-- Target-keyword derivation (`extractKeywords` in `src/lib/blogChecker.ts`):
tokens longer than 3, stop words removed, at most 5. -/
def extractKeywords (title : List Char) : List (List Char) :=
  ((splitWsJS (sanitize (lower title))).filter
    (fun w => w.length > 3 && !(keywordStopWords.contains w))).take 5

/-- The duplicate-topic pass (`checkTopicsForDuplicates` in
`src/lib/blogChecker.ts`): posts of the first check result for the project
(empty when absent), then one `BlogTopic` per candidate title. -/
def checkTopicsForDuplicates (topics : List (List Char)) (project : ProjectName)
    (blogCheckResults : List BlogCheckResult) : List BlogTopic :=
  let existingPosts :=
    match blogCheckResults.find? (fun r => r.project = project) with
    | some r => r.existingPosts
    | none => []
  topics.map (fun topic =>
    let res := isSimilarTopic topic existingPosts
    { title := topic
      targetKeywords := extractKeywords topic
      project := project
      isDuplicate := res.isDuplicate
      existingPostTitle := res.matchedPost })

-- ===================================================================
-- History tracker (History Tracker module of the repository)
-- ===================================================================

/-- Condensed history entry (`HistoryEntry` of the history tracker). -/
structure HistoryEntry where
  date : List Char
  project : ProjectName
  category : List Char
  summary : List Char
  keyFindings : List (List Char)
  sources : List (List Char)
deriving DecidableEq, Repr

/-- Week bucket (`WeeklyHistory` of the history tracker); `weekStart` is the
ISO `YYYY-MM-DD` date of the Monday opening the week. -/
structure WeeklyHistory where
  weekStart : List Char
  entries : List HistoryEntry
deriving DecidableEq, Repr

/-- Week-bucket pruning (`pruneHistory`): sort by week start descending and
keep the first `WEEKS_TO_KEEP = 3`.  The source sorts by
`new Date(weekStart).getTime()`; on ISO `YYYY-MM-DD` strings that ordering
coincides with the lexicographic order on the strings used here. -/
def pruneHistory (history : List WeeklyHistory) : List WeeklyHistory :=
  (history.mergeSort (fun a b => decide (b.weekStart ≤ a.weekStart))).take 3

/-- Committed window of `saveHistory`: the pruned history (the KV write and
the best-effort markdown mirror are I/O around this value). -/
def saveHistory (history : List WeeklyHistory) : List WeeklyHistory :=
  pruneHistory history

/-- Word-token set builder of the history duplicate check:
`new Set(text.split(/\s+/).filter(w => w.length > 3))`, as a duplicate-free
list. -/
def wordSet (l : List Char) : List (List Char) :=
  ((splitWsJS l).filter (fun w => w.length > 3)).dedup

/-- Jaccard text similarity (`calculateTextSimilarity` of the history
tracker): intersection size over union size of the two token sets, zero when
either set is empty. -/
def calculateTextSimilarity (text1 text2 : List Char) : ℚ :=
  let words1 := wordSet text1
  let words2 := wordSet text2
  if words1.length = 0 ∨ words2.length = 0 then 0
  else
    mkRat ((words1.filter (fun w => words2.contains w)).length)
      (((words1 ++ words2).dedup).length)

/-- Summary of a new finding for the duplicate check:
`(finding.mostImportantInsight || finding.keyFindings[0] || '').toLowerCase()`. -/
def newSummaryOf (f : ResearchFinding) : List Char :=
  lower (if f.mostImportantInsight ≠ [] then f.mostImportantInsight
         else match f.keyFindings with
              | k :: _ => k
              | [] => [])

/-- Token set of the new finding's summary. -/
def newFindingKeywords (f : ResearchFinding) : List (List Char) :=
  wordSet (newSummaryOf f)

/-- JavaScript `Array.prototype.join(' ')`. -/
def joinSpace : List (List Char) → List Char
  | [] => []
  | [x] => x
  | x :: xs => x ++ ' ' :: joinSpace xs

/-- Lowercased concatenation of the new finding's key findings. -/
def newFindingsText (f : ResearchFinding) : List Char :=
  lower (joinSpace f.keyFindings)

/-- Entry comparison of the history duplicate check (`isDuplicate` loop
body): same project, and either summary word overlap above one half or key
findings Jaccard similarity above two fifths. -/
def entryMatches (f : ResearchFinding) (entry : HistoryEntry) : Bool :=
  decide (entry.project = f.project) &&
  (let entryKeywords := (splitWsJS (lower entry.summary)).filter (fun w => w.length > 3)
   let overlap := (entryKeywords.filter (fun w => (newFindingKeywords f).contains w)).length
   decide (mkRat overlap (Nat.max (newFindingKeywords f).length 1) > mkRat 1 2) ||
   decide (calculateTextSimilarity (lower (joinSpace entry.keyFindings)) (newFindingsText f) > mkRat 2 5))

/-- Outcome record of the history duplicate check. -/
structure DupResult where
  isDuplicate : Bool
  matchedEntry : Option HistoryEntry := none
  matchedWeek : Option (List Char) := none
deriving DecidableEq, Repr

/-- Week loop of the history duplicate check: first matching entry of the
first week containing one. -/
def dupSearch (f : ResearchFinding) : List WeeklyHistory → DupResult
  | [] => { isDuplicate := false }
  | week :: rest =>
    match week.entries.find? (entryMatches f) with
    | some e =>
      { isDuplicate := true, matchedEntry := some e, matchedWeek := some week.weekStart }
    | none => dupSearch f rest

/-- History duplicate check (`isDuplicate` of the history tracker). -/
def isDuplicate (f : ResearchFinding) (history : List WeeklyHistory) : DupResult :=
  dupSearch f history

/-- History duplicate partition (`filterDuplicates` of the history tracker);
the loaded history is passed explicitly here. -/
def filterDuplicates (findings : List ResearchFinding)
    (history : List WeeklyHistory) : List ResearchFinding × List ResearchFinding :=
  match findings with
  | [] => ([], [])
  | f :: rest =>
    let (unique, duplicates) := filterDuplicates rest history
    if (isDuplicate f history).isDuplicate then (unique, f :: duplicates)
    else (f :: unique, duplicates)

-- ===================================================================
-- Urgent-item filter (src/lib/resend.ts)
-- ===================================================================

/-- Urgent item (`UrgentItem` in `src/types/index.ts`). -/
structure UrgentItem where
  project : ProjectName
  summary : List Char
  source : List Char
  priority : PriorityLevel
  category : QueryCategory
  timestamp : List Char
deriving DecidableEq, Repr

/-- Same-day duplicate test of `filterNewUrgentItems` in `src/lib/resend.ts`:
same project, and the share of morning-summary words found in the evening
summary's word set exceeds one half. -/
def urgentDup (morningItem eveningItem : UrgentItem) : Bool :=
  if morningItem.project ≠ eveningItem.project then false
  else
    let eveningWords := (splitWsJS (lower eveningItem.summary)).dedup
    let morningWords := splitWsJS (lower morningItem.summary)
    let overlap := (morningWords.filter (fun w => eveningWords.contains w)).length
    decide (mkRat overlap (Nat.max morningWords.length 1) > mkRat 1 2)

/-- Evening filter (`filterNewUrgentItems` in `src/lib/resend.ts`): keep the
evening items that no morning item duplicates. -/
def filterNewUrgentItems (eveningItems morningItems : List UrgentItem) :
    List UrgentItem :=
  eveningItems.filter (fun e => !(morningItems.any (fun m => urgentDup m e)))

-- ===================================================================
-- Cron job results (src/app/api/cron/morning-digest/route.ts)
-- ===================================================================

/-- Job result record (`CronJobResult` in `src/types/index.ts`). -/
structure CronJobResult where
  success : Bool
  jobType : List Char
  timestamp : List Char
  queriesProcessed : Nat
  urgentItemsFound : Nat
  emailSent : Bool
  errors : List (List Char)
deriving DecidableEq, Repr

/-- Normal-path result of the morning run (`GET`, morning branch):
`success: emailSent && errors.length < findings.length / 2`. -/
def mkMorningResult (timestamp : List Char) (findingsCount urgentCount : Nat)
    (emailSent : Bool) (errors : List (List Char)) : CronJobResult :=
  { success := emailSent && decide (mkRat errors.length 1 < mkRat findingsCount 2)
    jobType := "morning".toList
    timestamp := timestamp
    queriesProcessed := findingsCount
    urgentItemsFound := urgentCount
    emailSent := emailSent
    errors := errors }

/-- Normal-path result of the evening run (`GET`, evening branch):
`success: true`, regardless of delivery or errors. -/
def mkEveningResult (timestamp : List Char) (findingsCount newUrgentCount : Nat)
    (emailSent : Bool) (errors : List (List Char)) : CronJobResult :=
  { success := true
    jobType := "evening".toList
    timestamp := timestamp
    queriesProcessed := findingsCount
    urgentItemsFound := newUrgentCount
    emailSent := emailSent
    errors := errors }

-- ===================================================================
-- Concrete scenario inputs
-- ===================================================================

/-- Raw text of the key-findings scenario in the specification. -/
def c1text : List Char :=
  "Key Findings:\n- A\n- B\nMost important insight: B matters\nPriority: high".toList

/-- Finding assembled from the scenario text (no citations). -/
def c1finding : ResearchFinding :=
  assembleFinding ("test".toList) .sponsorbase .market_intel c1text [] []

/-- Candidate blog topic of the duplicate-check scenario. -/
def c2Candidate : List Char :=
  "Building Your Media Kit: What Brands Actually Want to See".toList

/-- Existing post title of the duplicate-check scenario. -/
def c2Existing : List Char := "Creating the Perfect Media Kit".toList

/-- Blog check results holding the one existing post. -/
def c2Results : List BlogCheckResult :=
  [{ project := .sponsorbase
     blogUrl := []
     existingPosts := [{ title := c2Existing, project := .sponsorbase }]
     success := true }]

/-- Evening job result for a failed delivery with one collected error. -/
def eveningFailExample : CronJobResult :=
  mkEveningResult [] 0 0 false [("Failed to send email".toList)]

/-- Concrete finding used by the history-check witnesses. -/
def c5f : ResearchFinding :=
  { query := []
    project := .luma
    category := .market_intel
    keyFindings := [("alpha beta gamma delta".toList)]
    mostImportantInsight := ("prior authorization pain keeps growing fast".toList)
    painPoints := []
    solutionRequests := []
    actionItems := []
    priority := .low
    sources := []
    rawResponse := []
    timestamp := [] }

/-- History entry sharing the summary of `c5f`. -/
def c5entry : HistoryEntry :=
  { date := []
    project := .luma
    category := []
    summary := ("prior authorization pain keeps growing fast".toList)
    keyFindings := []
    sources := [] }

/-- Week bucket holding `c5entry`. -/
def c5week1 : WeeklyHistory :=
  { weekStart := ("2026-01-05".toList), entries := [c5entry] }

/-- Later, empty week bucket. -/
def c5week2 : WeeklyHistory :=
  { weekStart := ("2026-01-12".toList), entries := [] }

/-- Morning urgent item of the evening-filter witness. -/
def c8item : UrgentItem :=
  { project := .sponsorbase
    summary := ("server outage hits creators".toList)
    source := []
    priority := .high
    category := .urgent_news
    timestamp := [] }

/-- Evening urgent item equal to `c8item` except for its timestamp. -/
def c8item2 : UrgentItem := { c8item with timestamp := ("evening".toList) }

/-- Double-quoted span of the pain-point counterexample. -/
def c7span : List Char := "this is a real pain point".toList

/-- Text before the span: contains one apostrophe. -/
def c7a : List Char := ("it".toList) ++ [apos] ++ ("s bad, ".toList)

/-- Text after the span: contains one apostrophe. -/
def c7b : List Char := (", it".toList) ++ [apos] ++ ("s sad".toList)

/-- Raw text whose two apostrophes pair up and swallow the double-quoted
span. -/
def c7text : List Char := c7a ++ ('"' :: (c7span ++ ('"' :: c7b)))

-- ===================================================================
-- Claim theorems
-- ===================================================================

/-- C1, counterexample: on the scenario text the assembled Finding does NOT
have keyFindings `["A", "B"]` with insight `"B matters"` — the two bullets are
10 characters or shorter and are discarded, and the insight regex cannot
reach a stop position past the line break, so its fallbacks apply. -/
theorem c1_scenario_counterexample :
    ¬ (c1finding.keyFindings = [("A".toList), ("B".toList)] ∧
       c1finding.mostImportantInsight = ("B matters".toList) ∧
       c1finding.priority = .high) := by
  decide

/-- C1, amended: on the scenario text the assembled Finding has empty
keyFindings, the placeholder insight, and priority "high". -/
theorem c1_scenario_amended :
    c1finding.keyFindings = [] ∧
    c1finding.mostImportantInsight = ("No specific insight extracted".toList) ∧
    c1finding.priority = .high := by
  decide

/-- C2, counterexample: for the scenario pair of titles the keyword overlap
is 2 of 7 (below one half) and neither 30-character head is contained in the
other, so the check does NOT return a duplicate. -/
theorem c2_blog_scenario_counterexample :
    ¬ ((checkTopicsForDuplicates [c2Candidate] .sponsorbase c2Results).map
        (fun t => (t.isDuplicate, t.existingPostTitle)) =
      [(true, some c2Existing)]) := by
  decide

/-- C2, amended: the scenario candidate is reported as NOT a duplicate, with
no matched existing post. -/
theorem c2_blog_scenario_amended :
    (checkTopicsForDuplicates [c2Candidate] .sponsorbase c2Results).map
      (fun t => (t.isDuplicate, t.existingPostTitle)) = [(false, none)] := by
  decide

/-- C4, counterexample: the evening job's normal-path result reports
success even when no email was sent, so success is not equivalent to
"email sent and errors fewer than half the processed findings". -/
theorem c4_job_success_counterexample :
    ¬ (eveningFailExample.success = true ↔
        eveningFailExample.emailSent = true ∧
        (mkRat eveningFailExample.errors.length 1 <
          mkRat eveningFailExample.queriesProcessed 2)) := by
  decide

/-- C4, amended: the morning job's normal-path result reports success exactly
when an email was sent and the collected errors number fewer than half the
processed findings; the evening job's normal-path result always reports
success, whatever the delivery outcome and errors. -/
theorem c4_job_success_amended (ts : List Char) (n u : Nat) (e : Bool)
    (errs : List (List Char)) :
    ((mkMorningResult ts n u e errs).success = true ↔
      e = true ∧ (mkRat errs.length 1 < mkRat n 2)) ∧
    (mkEveningResult ts n u e errs).success = true := by
  constructor
  · simp [mkMorningResult]
  · rfl

/-- C4, witness: a morning run with one error out of four findings and a
sent email is successful, and the matching evening result reports success. -/
theorem c4_job_success_witness :
    ((mkMorningResult [] 4 0 true [("e1".toList)]).success = true ↔
      true = true ∧ (mkRat ([("e1".toList)] : List (List Char)).length 1 < mkRat 4 2)) ∧
    (mkEveningResult [] 4 0 true [("e1".toList)]).success = true :=
  c4_job_success_amended [] 4 0 true [("e1".toList)]

/-- C6: the priority extractor scans the lowercased text for "urgent",
"high", "medium" in that precedence order, and returns "low" exactly when
none of the three occurs. -/
theorem c6_priority_precedence (text : List Char) :
    (containsSub (lower text) ("urgent".toList) = true →
      parsePriority text = .urgent) ∧
    (containsSub (lower text) ("urgent".toList) = false →
      containsSub (lower text) ("high".toList) = true →
      parsePriority text = .high) ∧
    (containsSub (lower text) ("urgent".toList) = false →
      containsSub (lower text) ("high".toList) = false →
      containsSub (lower text) ("medium".toList) = true →
      parsePriority text = .medium) ∧
    (parsePriority text = .low ↔
      containsSub (lower text) ("urgent".toList) = false ∧
      containsSub (lower text) ("high".toList) = false ∧
      containsSub (lower text) ("medium".toList) = false) := by
  by_cases hu : containsSub (lower text) ("urgent".toList) <;>
  by_cases hh : containsSub (lower text) ("high".toList) <;>
  by_cases hm : containsSub (lower text) ("medium".toList) <;>
  simp only [Bool.not_eq_true] at hu hh hm <;>
  simp at hu hh hm <;>
  simp [parsePriority, hu, hh, hm]

/-- C6, witness: a text containing "URGENT" (despite also containing "high")
is classified urgent, and a neutral text is classified low. -/
theorem c6_priority_precedence_witness :
    containsSub (lower ("URGENT high alert".toList)) ("urgent".toList) = true ∧
    parsePriority ("URGENT high alert".toList) = .urgent ∧
    parsePriority ("all quiet today".toList) = .low :=
  ⟨by decide, (c6_priority_precedence ("URGENT high alert".toList)).1 (by decide),
   (c6_priority_precedence ("all quiet today".toList)).2.2.2.mpr (by decide)⟩

theorem citationSources_urls (citations : List (List Char)) :
    (citationSources citations).map Source.url = citations := by
  rw [citationSources, List.map_map]
  have hcomp : (Source.url ∘ fun p : Nat × List Char =>
      ({ title := "Source ".toList ++ natChars (p.1 + 1), url := p.2 } : Source)) =
      Prod.snd := rfl
  rw [hcomp, List.enum_map_snd]

theorem addSourceFromText_nodup {s : List Source} (m : List Char)
    (hs : (s.map Source.url).Nodup) :
    ((addSourceFromText s m).map Source.url).Nodup := by
  rw [addSourceFromText]
  by_cases hmem : s.any (fun x => x.url = stripTrailingPunct m)
  · simpa [hmem] using hs
  · simp only [Bool.not_eq_true] at hmem
    have hnotin : stripTrailingPunct m ∉ s.map Source.url := by
      intro hin
      obtain ⟨x, hx, hxe⟩ := List.mem_map.mp hin
      have := List.any_eq_false.mp hmem x hx
      simp [hxe] at this
    simp [hmem, List.nodup_append, hs, hnotin]

theorem foldl_addSource_nodup : ∀ (ms : List (List Char)) (s : List Source),
    (s.map Source.url).Nodup → ((ms.foldl addSourceFromText s).map Source.url).Nodup := by
  intro ms
  induction ms with
  | nil => intro s hs; simpa using hs
  | cons m rest ih =>
    intro s hs
    rw [List.foldl_cons]
    exact ih _ (addSourceFromText_nodup m hs)

/-- C3, counterexample: a citation list repeating one URL yields two Source
records with equal urls — citations are pushed verbatim, without the
dedup check applied to text-scanned URLs. -/
theorem c3_sources_dedup_counterexample :
    ¬ ((extractSources [("https://x.com".toList), ("https://x.com".toList)] []).map
        Source.url).Nodup := by
  decide

/-- C3, amended: when the citation URLs are pairwise distinct, the extracted
sources are deduplicated by URL — each text-scanned URL is added only when no
collected record already carries it. -/
theorem c3_sources_dedup_amended (citations : List (List Char)) (content : List Char)
    (h : citations.Nodup) :
    ((extractSources citations content).map Source.url).Nodup := by
  rw [extractSources]
  exact foldl_addSource_nodup _ _ (by rwa [citationSources_urls])

/-- C3, witness: two distinct citations plus a raw text repeating one of them
still give pairwise distinct source URLs. -/
theorem c3_sources_dedup_witness :
    ([("https://a.com".toList), ("https://b.com".toList)] : List (List Char)).Nodup ∧
    ((extractSources [("https://a.com".toList), ("https://b.com".toList)]
        ("see https://a.com today".toList)).map Source.url).Nodup :=
  ⟨by decide, c3_sources_dedup_amended _ _ (by decide)⟩

theorem entryMatches_iff (f : ResearchFinding) (e : HistoryEntry) :
    entryMatches f e = true ↔
      e.project = f.project ∧
      (mkRat (((splitWsJS (lower e.summary)).filter (fun w => w.length > 3)).filter
          (fun w => (newFindingKeywords f).contains w)).length
          (Nat.max (newFindingKeywords f).length 1) > mkRat 1 2 ∨
       calculateTextSimilarity (lower (joinSpace e.keyFindings)) (newFindingsText f) >
         mkRat 2 5) := by
  simp [entryMatches]

theorem dupSearch_isDup_iff (f : ResearchFinding) (h : List WeeklyHistory) :
    (dupSearch f h).isDuplicate = true ↔
      ∃ w ∈ h, ∃ e ∈ w.entries, entryMatches f e = true := by
  induction h with
  | nil => simp [dupSearch]
  | cons week rest ih =>
    rw [dupSearch]
    cases hf : week.entries.find? (entryMatches f) with
    | some e =>
      simp only []
      constructor
      · intro _
        exact ⟨week, List.mem_cons_self week rest,
          e, List.mem_of_find?_eq_some hf, List.find?_some hf⟩
      · intro _; trivial
    | none =>
      have hnone := List.find?_eq_none.mp hf
      rw [ih]
      constructor
      · rintro ⟨w, hw, e, he, hm⟩
        exact ⟨w, List.mem_cons_of_mem week hw, e, he, hm⟩
      · rintro ⟨w, hw, e, he, hm⟩
        rcases List.mem_cons.mp hw with hweq | hwr
        · subst hweq; exact absurd hm (hnone e he)
        · exact ⟨w, hwr, e, he, hm⟩

/-- C5: the history duplicate check declares a new Finding a duplicate
exactly when some entry of some week has the same project and either summary
word overlap above one half (the ratio `mkRat overlap (max size 1)` is the
source's `overlap / Math.max(size, 1)`) or key-findings Jaccard similarity
above two fifths; the boolean outcome is invariant under permuting the weeks
of the window. -/
theorem c5_history_dup_iff_perm (f : ResearchFinding) (h h2 : List WeeklyHistory)
    (hp : h.Perm h2) :
    ((isDuplicate f h).isDuplicate = true ↔
      ∃ w ∈ h, ∃ e ∈ w.entries, e.project = f.project ∧
        (mkRat (((splitWsJS (lower e.summary)).filter (fun w => w.length > 3)).filter
            (fun w => (newFindingKeywords f).contains w)).length
            (Nat.max (newFindingKeywords f).length 1) > mkRat 1 2 ∨
         calculateTextSimilarity (lower (joinSpace e.keyFindings)) (newFindingsText f) >
           mkRat 2 5)) ∧
    (isDuplicate f h).isDuplicate = (isDuplicate f h2).isDuplicate := by
  constructor
  · rw [isDuplicate, dupSearch_isDup_iff]
    exact exists_congr fun w => and_congr_right fun _ =>
      exists_congr fun e => and_congr_right fun _ => entryMatches_iff f e
  · rw [Bool.eq_iff_iff, isDuplicate, isDuplicate,
      dupSearch_isDup_iff, dupSearch_isDup_iff]
    constructor
    · rintro ⟨w, hw, rest⟩; exact ⟨w, hp.mem_iff.mp hw, rest⟩
    · rintro ⟨w, hw, rest⟩; exact ⟨w, hp.mem_iff.mpr hw, rest⟩

/-- C5, witness: a finding whose summary repeats a history entry is declared
a duplicate, and swapping the two weeks leaves the boolean unchanged. -/
theorem c5_history_dup_witness :
    (isDuplicate c5f [c5week1, c5week2]).isDuplicate = true ∧
    (isDuplicate c5f [c5week1, c5week2]).isDuplicate =
      (isDuplicate c5f [c5week2, c5week1]).isDuplicate :=
  ⟨by decide,
   (c5_history_dup_iff_perm c5f [c5week1, c5week2] [c5week2, c5week1]
     (List.Perm.swap c5week2 c5week1 [])).2⟩

theorem filter_length_partition {α : Type} (p : α → Bool) (l : List α) :
    (l.filter (fun a => !(p a))).length + (l.filter p).length = l.length := by
  induction l with
  | nil => rfl
  | cons x rest ih =>
    by_cases hp : p x <;> simp [List.filter_cons, hp] <;> omega

theorem filterDuplicates_eq (findings : List ResearchFinding)
    (history : List WeeklyHistory) :
    filterDuplicates findings history =
      (findings.filter (fun f => !(isDuplicate f history).isDuplicate),
       findings.filter (fun f => (isDuplicate f history).isDuplicate)) := by
  induction findings with
  | nil => rfl
  | cons f rest ih =>
    rw [filterDuplicates, ih]
    by_cases hd : (isDuplicate f history).isDuplicate <;>
      simp [hd, List.filter_cons]

/-- C10: the history duplicate filter partitions its input — both returned
lists are subsequences of the input (preserving relative order), their
lengths sum to the input length, every input finding lands in one of the two
lists, and no finding lands in both. -/
theorem c10_filter_duplicates_partition (findings : List ResearchFinding)
    (history : List WeeklyHistory) :
    (filterDuplicates findings history).1.Sublist findings ∧
    (filterDuplicates findings history).2.Sublist findings ∧
    (filterDuplicates findings history).1.length +
      (filterDuplicates findings history).2.length = findings.length ∧
    (∀ f ∈ findings,
      f ∈ (filterDuplicates findings history).1 ∨
      f ∈ (filterDuplicates findings history).2) ∧
    (∀ f, ¬ (f ∈ (filterDuplicates findings history).1 ∧
             f ∈ (filterDuplicates findings history).2)) := by
  rw [filterDuplicates_eq]
  refine ⟨List.filter_sublist _, List.filter_sublist _, ?_, ?_, ?_⟩
  · exact filter_length_partition _ findings
  · intro f hf
    by_cases hd : (isDuplicate f history).isDuplicate
    · right; exact List.mem_filter.mpr ⟨hf, by simp [hd]⟩
    · left; exact List.mem_filter.mpr ⟨hf, by simp [hd]⟩
  · rintro f ⟨h1, h2⟩
    have p1 := (List.mem_filter.mp h1).2
    have p2 := (List.mem_filter.mp h2).2
    simp only [Bool.not_eq_true'] at p1
    rw [p1] at p2
    exact absurd p2 (by simp)

/-- C10, witness: an input of one finding splits into lists whose lengths
sum to one. -/
theorem c10_filter_duplicates_witness :
    (filterDuplicates [c5f] [c5week1]).1.length +
      (filterDuplicates [c5f] [c5week1]).2.length = 1 :=
  (c10_filter_duplicates_partition [c5f] [c5week1]).2.2.1

theorem jsSplitF_ne_nil (p : Char → Bool) :
    ∀ (fuel : Nat) (skip : Bool) (l acc : List Char),
      jsSplitF p fuel skip l acc ≠ [] := by
  intro fuel
  induction fuel with
  | zero =>
    intro skip l acc
    cases skip <;> simp [jsSplitF]
  | succ n ih =>
    intro skip l acc
    cases l with
    | nil => cases skip <;> simp [jsSplitF]
    | cons c rest =>
      cases skip <;> rw [jsSplitF] <;> by_cases hc : p c <;> simp [hc, ih]

theorem splitWsJS_ne_nil (l : List Char) : splitWsJS l ≠ [] :=
  jsSplitF_ne_nil isSpace l.length false l []

theorem urgentDup_iff (m e : UrgentItem) :
    urgentDup m e = true ↔
      m.project = e.project ∧
      mkRat ((splitWsJS (lower m.summary)).filter
          (fun w => ((splitWsJS (lower e.summary)).dedup).contains w)).length
        (Nat.max (splitWsJS (lower m.summary)).length 1) > mkRat 1 2 := by
  by_cases hp : m.project = e.project <;> simp [urgentDup, hp]

theorem urgentDup_of_same (m e : UrgentItem)
    (hproj : e.project = m.project) (hsum : e.summary = m.summary) :
    urgentDup m e = true := by
  rw [urgentDup_iff, hsum]
  refine ⟨hproj.symm, ?_⟩
  have hfull : (splitWsJS (lower m.summary)).filter
      (fun w => ((splitWsJS (lower m.summary)).dedup).contains w) =
      splitWsJS (lower m.summary) := by
    apply List.filter_eq_self.mpr
    intro w hw
    simpa [List.mem_dedup] using hw
  rw [hfull]
  have hpos : 0 < (splitWsJS (lower m.summary)).length :=
    List.length_pos.mpr (splitWsJS_ne_nil (lower m.summary))
  have hmax : Nat.max (splitWsJS (lower m.summary)).length 1 =
      (splitWsJS (lower m.summary)).length := Nat.max_eq_left hpos
  have hne : ((splitWsJS (lower m.summary)).length : ℚ) ≠ 0 := by
    exact_mod_cast Nat.pos_iff_ne_zero.mp hpos
  rw [hmax, Rat.mkRat_eq_div, Rat.mkRat_eq_div]
  push_cast
  rw [div_self hne]
  norm_num

/-- C8: the evening urgent-item filter returns a subsequence of the evening
list (so no longer than it); an evening item is removed exactly when some
morning item shares its project and the share of morning-summary words found
in the evening summary's word set exceeds one half; and two single-item lists
with identical project and summary filter to the empty list. -/
theorem c8_filter_new_props (evening morning : List UrgentItem) :
    (filterNewUrgentItems evening morning).Sublist evening ∧
    (filterNewUrgentItems evening morning).length ≤ evening.length ∧
    (∀ e ∈ evening, (e ∉ filterNewUrgentItems evening morning ↔
      ∃ m ∈ morning, m.project = e.project ∧
        mkRat ((splitWsJS (lower m.summary)).filter
            (fun w => ((splitWsJS (lower e.summary)).dedup).contains w)).length
          (Nat.max (splitWsJS (lower m.summary)).length 1) > mkRat 1 2)) ∧
    (∀ e m : UrgentItem, e.project = m.project → e.summary = m.summary →
      filterNewUrgentItems [e] [m] = []) := by
  refine ⟨List.filter_sublist _, (List.filter_sublist _).length_le, ?_, ?_⟩
  · intro e he
    simp [filterNewUrgentItems, List.mem_filter, he, List.any_eq_true,
      urgentDup_iff]
  · intro e m hproj hsum
    have hd := urgentDup_of_same m e hproj hsum
    simp [filterNewUrgentItems, hd]

/-- C8, witness: one evening item differing from the morning item only in its
timestamp is filtered out entirely. -/
theorem c8_filter_new_witness :
    filterNewUrgentItems [c8item2] [c8item] = [] :=
  (c8_filter_new_props [c8item2] [c8item]).2.2.2 c8item2 c8item rfl rfl

theorem weekLe_trans : ∀ a b c : WeeklyHistory,
    (fun a b : WeeklyHistory => decide (b.weekStart ≤ a.weekStart)) a b = true →
    (fun a b : WeeklyHistory => decide (b.weekStart ≤ a.weekStart)) b c = true →
    (fun a b : WeeklyHistory => decide (b.weekStart ≤ a.weekStart)) a c = true := by
  intro a b c hab hbc
  simp only [decide_eq_true_eq] at hab hbc ⊢
  exact le_trans hbc hab

theorem weekLe_total : ∀ a b : WeeklyHistory,
    ((fun a b : WeeklyHistory => decide (b.weekStart ≤ a.weekStart)) a b ||
     (fun a b : WeeklyHistory => decide (b.weekStart ≤ a.weekStart)) b a) = true := by
  intro a b
  simp only [Bool.or_eq_true, decide_eq_true_eq]
  exact le_total b.weekStart a.weekStart

/-- C9: the window committed by save holds at most 3 week buckets, every kept
bucket comes from the input, every kept bucket's week start is at least that
of every discarded bucket, and pruning an already pruned window changes
nothing. -/
theorem c9_prune_bounded_idem (h : List WeeklyHistory) :
    (saveHistory h).length ≤ 3 ∧
    (∀ b ∈ saveHistory h, b ∈ h) ∧
    (∀ b ∈ saveHistory h, ∀ c ∈ h, c ∉ saveHistory h → c.weekStart ≤ b.weekStart) ∧
    pruneHistory (pruneHistory h) = pruneHistory h := by
  have hsorted := @List.sorted_mergeSort WeeklyHistory
    (fun a b : WeeklyHistory => decide (b.weekStart ≤ a.weekStart))
    weekLe_trans weekLe_total h
  have hperm := List.mergeSort_perm h (fun a b : WeeklyHistory =>
    decide (b.weekStart ≤ a.weekStart))
  refine ⟨?_, ?_, ?_, ?_⟩
  · simp only [saveHistory, pruneHistory, List.length_take]
    omega
  · intro b hb
    exact hperm.mem_iff.mp (List.take_subset 3 _ hb)
  · intro b hb c hc hcnot
    have hcs : c ∈ (h.mergeSort (fun a b : WeeklyHistory =>
        decide (b.weekStart ≤ a.weekStart))) := hperm.mem_iff.mpr hc
    rw [← List.take_append_drop 3 (h.mergeSort (fun a b : WeeklyHistory =>
      decide (b.weekStart ≤ a.weekStart)))] at hcs
    have hcdrop : c ∈ (h.mergeSort (fun a b : WeeklyHistory =>
        decide (b.weekStart ≤ a.weekStart))).drop 3 := by
      rcases List.mem_append.mp hcs with h1 | h2
      · exact absurd h1 hcnot
      · exact h2
    have hpw := hsorted
    rw [← List.take_append_drop 3 (h.mergeSort (fun a b : WeeklyHistory =>
      decide (b.weekStart ≤ a.weekStart)))] at hpw
    have hrel := (List.pairwise_append.mp hpw).2.2 b hb c hcdrop
    exact decide_eq_true_eq.mp hrel
  · have hpw3 : List.Pairwise (fun a b : WeeklyHistory =>
        (fun a b : WeeklyHistory => decide (b.weekStart ≤ a.weekStart)) a b = true)
        ((h.mergeSort (fun a b : WeeklyHistory =>
          decide (b.weekStart ≤ a.weekStart))).take 3) :=
      List.Pairwise.sublist (List.take_sublist 3 _) hsorted
    rw [pruneHistory, pruneHistory, List.mergeSort_of_sorted hpw3, List.take_take]
    norm_num

/-- C9, witness: a four-bucket window is pruned to at most 3 buckets, and
pruning again changes nothing. -/
theorem c9_prune_witness :
    (saveHistory [c5week1, c5week2, c5week1, c5week2]).length ≤ 3 ∧
    pruneHistory (pruneHistory [c5week1, c5week2, c5week1, c5week2]) =
      pruneHistory [c5week1, c5week2, c5week1, c5week2] :=
  ⟨(c9_prune_bounded_idem [c5week1, c5week2, c5week1, c5week2]).1,
   (c9_prune_bounded_idem [c5week1, c5week2, c5week1, c5week2]).2.2.2⟩

theorem assignSubreddit_quotes (t n : List Char) (pps : List PainPoint) :
    (assignSubreddit t n pps).map PainPoint.quote = pps.map PainPoint.quote := by
  induction pps with
  | nil => rfl
  | cons p rest ih =>
    rw [assignSubreddit]
    split <;> simp [ih]

theorem extractPainPoints_quotes (t : List Char) :
    (extractPainPoints t).map PainPoint.quote =
      (painPointsPass1 t).map PainPoint.quote := by
  rw [extractPainPoints]
  generalize painPointsPass1 t = pps
  generalize scanSubreddits t = names
  induction names generalizing pps with
  | nil => rfl
  | cons n rest ih =>
    rw [List.foldl_cons, ih, assignSubreddit_quotes]

theorem painPointsPass1_quotes (t : List Char) :
    (painPointsPass1 t).map PainPoint.quote =
      (scanQuotes t).filter (fun q => q.length > 10 && q.length < 500) := by
  rw [painPointsPass1, List.map_map]
  have hcomp : (PainPoint.quote ∘ mkPainPoint) = id := rfl
  rw [hcomp, List.map_id]

theorem splitAtChar_of_not_mem {c : Char} {s : List Char} (b : List Char)
    (hc : c ∉ s) : splitAtChar c (s ++ c :: b) = some (s, b) := by
  induction s with
  | nil => simp [splitAtChar]
  | cons d s2 ih =>
    have hd : d ≠ c := fun hdc => hc (hdc ▸ List.mem_cons_self d s2)
    have hc2 : c ∉ s2 := fun hmem => hc (List.mem_cons_of_mem d hmem)
    simp only [List.cons_append, splitAtChar, if_neg hd, List.append_eq,
      ih hc2, Option.map_some']

theorem scanQuotesF_skip : ∀ (a r : List Char),
    (∀ c ∈ a, ¬(c = '"' ∨ c = apos)) →
    scanQuotesF (a ++ r).length (a ++ r) = scanQuotesF r.length r := by
  intro a
  induction a with
  | nil => intro r _; rfl
  | cons c a2 ih =>
    intro r ha
    have hc : ¬(c = '"' ∨ c = apos) := ha c (List.mem_cons_self c a2)
    have ha2 : ∀ x ∈ a2, ¬(x = '"' ∨ x = apos) :=
      fun x hx => ha x (List.mem_cons_of_mem c hx)
    simp only [List.cons_append, List.length_cons]
    rw [scanQuotesF, if_neg hc]
    exact ih r ha2

/-- C7, counterexample: the raw text `c7text` contains the double-quoted span
`c7span` of length strictly between 10 and 500, yet the extractor returns no
pain point with that quote — the two apostrophes around it match as a
single-quote pair first and swallow the double-quoted span. -/
theorem c7_quoted_span_counterexample :
    (c7text = c7a ++ ('"' :: (c7span ++ ('"' :: c7b))) ∧
     ('"' ∉ c7span) ∧ c7span.length > 10 ∧ c7span.length < 500) ∧
    c7span ∉ (extractPainPoints c7text).map PainPoint.quote := by
  constructor
  · exact ⟨rfl, by decide, by decide, by decide⟩
  · decide

/-- C7, amended: when no quote character (double quote or apostrophe) occurs
before the span's opening quote or inside the span, a quoted span of length
strictly between 10 and 500 is returned as a pain-point quote, stripped of
its surrounding quote characters. -/
theorem c7_quoted_span_amended (a span b : List Char) (q : Char)
    (hq : q = '"' ∨ q = apos)
    (ha : ∀ c ∈ a, ¬(c = '"' ∨ c = apos))
    (hs : ∀ c ∈ span, ¬(c = '"' ∨ c = apos))
    (hlen1 : span.length > 10) (hlen2 : span.length < 500) :
    span ∈ (extractPainPoints (a ++ (q :: (span ++ (q :: b))))).map
      PainPoint.quote := by
  rw [extractPainPoints_quotes, painPointsPass1_quotes]
  apply List.mem_filter.mpr
  refine ⟨?_, by simp [hlen1, hlen2]⟩
  rw [scanQuotes, scanQuotesF_skip a (q :: (span ++ (q :: b))) ha]
  have hqnot : q ∉ span := fun hmem => hs q hmem hq
  have hne : ¬(span.isEmpty = true) := by
    cases span with
    | nil => simp at hlen1
    | cons x xs => simp
  simp only [List.length_cons]
  rw [scanQuotesF, if_pos hq, splitAtChar_of_not_mem b hqnot]
  simp only [if_neg hne]
  exact List.mem_cons_self span _

/-- C7, witness: a double-quoted complaint in an otherwise quote-free text is
extracted verbatim. -/
theorem c7_quoted_span_witness :
    ("tracking is painful".toList) ∈
      (extractPainPoints (("He said ".toList) ++
        ('"' :: (("tracking is painful".toList) ++ ('"' :: (" end".toList)))))).map
        PainPoint.quote :=
  c7_quoted_span_amended ("He said ".toList) ("tracking is painful".toList)
    (" end".toList) '"' (Or.inl rfl) (by decide) (by decide) (by decide) (by decide)

end Research
